import Mathlib

/-!
Verification of the fetch/normalize/persist workflow of the PrismAPI
review-agent (my_review_agent): the NCBI session-cursor fetch engine, the
Web of Science page-number fetch engine, the two record normalizers, the
result sink and the command-dispatch loop, shallowly embedded from
src/my_review_agent/src/my_review_agent/{provider,controller,app,models}.py.

Python values flowing out of the external APIs are modelled by the JVal
type below (JSON-like nested data); Python exceptions are modelled by
Except PyError; the provider methods that swallow exceptions and return
None are modelled as Option-returning functions.
-/

/-- A Python/JSON value as it appears in parsed API payloads:
None, bool, int, str, list, dict (a dict is an association list with
distinct keys; lookup takes the first binding, as Python does). -/
inductive JVal where
  | jnull : JVal
  | jbool : Bool → JVal
  | jnum : Int → JVal
  | jstr : String → JVal
  | jlist : List JVal → JVal
  | jdict : List (String × JVal) → JVal

/-- Python exceptions that the embedded code can raise. -/
inductive PyError where
  | attributeError : PyError
  | typeError : PyError
  | keyError : PyError
  | httpError (status : Nat) (text : String) : PyError
  deriving DecidableEq, Repr

/-- Association-list lookup, first binding wins (Python dict access). -/
def jLookup (fs : List (String × JVal)) (key : String) : Option JVal :=
  match fs.find? (fun kv => kv.1 == key) with
  | some kv => some kv.2
  | none => none

/-- Python dict.get(key, default) on a known dict. -/
def jLookupD (fs : List (String × JVal)) (key : String) (d : JVal) : JVal :=
  (jLookup fs key).getD d

/-- Python v.get(key, default): succeeds on a dict, raises AttributeError
on any other value (str, list, int, ... have no .get method). -/
def jGetD : JVal → String → JVal → Except PyError JVal
  | .jdict fs, key, d => .ok (jLookupD fs key d)
  | _, _, _ => .error .attributeError

/-- Python truthiness of a value. -/
def pyTruthy : JVal → Bool
  | .jnull => false
  | .jbool b => b
  | .jnum n => n != 0
  | .jstr s => s != ""
  | .jlist xs => !xs.isEmpty
  | .jdict fs => !fs.isEmpty

mutual
/-- Python str() of a value: strings pass through unchanged, other
values render via their repr, so a numeric or structured source value
always becomes a string. -/
def pyStr : JVal → String
  | .jnull => "None"
  | .jbool b => if b then "True" else "False"
  | .jnum n => toString n
  | .jstr s => s
  | .jlist xs => "[" ++ String.intercalate ", " (pyReprList xs) ++ "]"
  | .jdict fs => "\x7b" ++ String.intercalate ", " (pyReprDict fs) ++ "\x7d"

/-- Python repr() of a value (strings gain quotes). -/
def pyRepr : JVal → String
  | .jnull => "None"
  | .jbool b => if b then "True" else "False"
  | .jnum n => toString n
  | .jstr s => "'" ++ s ++ "'"
  | .jlist xs => "[" ++ String.intercalate ", " (pyReprList xs) ++ "]"
  | .jdict fs => "\x7b" ++ String.intercalate ", " (pyReprDict fs) ++ "\x7d"

def pyReprList : List JVal → List String
  | [] => []
  | x :: xs => pyRepr x :: pyReprList xs

def pyReprDict : List (String × JVal) → List String
  | [] => []
  | kv :: fs => ("'" ++ kv.1 ++ "': " ++ pyRepr kv.2) :: pyReprDict fs
end

/-- The elements of a list of values when all of them are strings
(otherwise none): what Python str.join accepts. -/
def allStrings : List JVal → Option (List String)
  | [] => some []
  | .jstr s :: xs => (allStrings xs).map (s :: ·)
  | _ => none

/-- Python sep.join(xs) over a list of values: a TypeError unless every
element is a string. -/
def pyJoin (sep : String) (xs : List JVal) : Except PyError String :=
  match allStrings xs with
  | some ss => .ok (String.intercalate sep ss)
  | none => .error .typeError

/-- Python sep.join(v) for an arbitrary value v: a list joins its string
elements, a string joins its characters, a dict joins its keys, anything
else is not iterable and raises TypeError. -/
def pyJoinVal (sep : String) : JVal → Except PyError String
  | .jlist xs => pyJoin sep xs
  | .jstr s => .ok (String.intercalate sep (s.data.map (fun c => String.mk [c])))
  | .jdict fs => .ok (String.intercalate sep (fs.map (·.1)))
  | _ => .error .typeError

/-- models.py PubMedArticle: every field a str (pydantic model). -/
structure PubMedArticle where
  PMID : String
  Title : String
  Abstract : String
  Journal : String
  Year : String
  deriving DecidableEq, Repr

/-- A value that pydantic accepts for a str-or-int field
(models.py WosArticle.Year is declared str | int). -/
inductive PyStrInt where
  | str (s : String) : PyStrInt
  | int (n : Int) : PyStrInt
  deriving DecidableEq, Repr

/-- models.py WosArticle: UID, DOI, Title str; Year str | int;
Journal, Authors str. -/
structure WosArticle where
  UID : String
  DOI : String
  Title : String
  Year : PyStrInt
  Journal : String
  Authors : String
  deriving DecidableEq, Repr

/-!
## NCBI record normalizer (provider.py, NcbiProvider._parse_pubmed_records)

The per-article extraction chain, with every .get modelled by jGetD (an
AttributeError when the receiver is not a dict) and the conditional join
of the abstract parts modelled by pyJoinVal. An exception anywhere
aborts the whole parse, exactly as in the source, where it propagates to
the except-clause of fetch_full_records.
-/

/-- The abstract-parts lookup chain of _parse_pubmed_records (lines 82-86):
article.get('MedlineCitation', \x7b\x7d).get('Article', \x7b\x7d)
.get('Abstract', \x7b\x7d).get('AbstractText', []). -/
def abstractPartsOf (article : JVal) : Except PyError JVal :=
  match jGetD article "MedlineCitation" (.jdict []) with
  | .error e => .error e
  | .ok citation =>
    match jGetD citation "Article" (.jdict []) with
    | .error e => .error e
    | .ok articleInfo =>
      match jGetD articleInfo "Abstract" (.jdict []) with
      | .error e => .error e
      | .ok abstractDict => jGetD abstractDict "AbstractText" (.jlist [])

/-- One article of _parse_pubmed_records (provider.py lines 81-102). -/
def parsePubmedOne (article : JVal) : Except PyError PubMedArticle :=
  match jGetD article "MedlineCitation" (.jdict []) with
  | .error e => .error e
  | .ok citation =>
   match jGetD citation "Article" (.jdict []) with
   | .error e => .error e
   | .ok articleInfo =>
    match jGetD articleInfo "ArticleTitle" (.jstr "No Title Found") with
    | .error e => .error e
    | .ok title =>
     match jGetD articleInfo "Abstract" (.jdict []) with
     | .error e => .error e
     | .ok abstractDict =>
      match jGetD abstractDict "AbstractText" (.jlist []) with
      | .error e => .error e
      | .ok abstractParts =>
       match (if pyTruthy abstractParts then pyJoinVal " " abstractParts
              else .ok "No Abstract Found") with
       | .error e => .error e
       | .ok abstract =>
        match jGetD articleInfo "Journal" (.jdict []) with
        | .error e => .error e
        | .ok journalInfo =>
         match jGetD journalInfo "Title" (.jstr "No Journal Found") with
         | .error e => .error e
         | .ok journalName =>
          match jGetD journalInfo "JournalIssue" (.jdict []) with
          | .error e => .error e
          | .ok journalIssue =>
           match jGetD journalIssue "PubDate" (.jdict []) with
           | .error e => .error e
           | .ok pubDate =>
            match jGetD pubDate "MedlineDate" (.jstr "No Year Found") with
            | .error e => .error e
            | .ok medlineDate =>
             match jGetD pubDate "Year" medlineDate with
             | .error e => .error e
             | .ok year =>
              match jGetD citation "PMID" (.jstr "") with
              | .error e => .error e
              | .ok pmid =>
               .ok { PMID := pyStr pmid, Title := pyStr title,
                     Abstract := abstract, Journal := pyStr journalName,
                     Year := pyStr year }

/-- NcbiProvider._parse_pubmed_records (provider.py lines 78-104): parse
each raw article in order; the first exception aborts the whole parse. -/
def parse_pubmed_records : List JVal → Except PyError (List PubMedArticle)
  | [] => .ok []
  | r :: rs =>
    match parsePubmedOne r with
    | .error e => .error e
    | .ok a =>
      match parse_pubmed_records rs with
      | .error e => .error e
      | .ok as => .ok (a :: as)

/-!
## WoS record normalizer (provider.py, WosProvider._parse_wos_records)
-/

/-- The author items Python iterates over in the for-loop of
_parse_wos_records (line 225): a list yields its elements, a dict its
keys, a string its characters; a number or bool is not iterable. -/
def iterAuthors : JVal → Except PyError (List JVal)
  | .jlist xs => .ok xs
  | .jdict fs => .ok (fs.map (fun kv => JVal.jstr kv.1))
  | .jstr s => .ok (s.data.map (fun c => JVal.jstr (String.mk [c])))
  | _ => .error .typeError

/-- One author entry mapped to the value appended to author_names
(provider.py lines 225-229): a dict contributes get('displayName', ''),
a string contributes itself, anything else is skipped. -/
def authorName : JVal → Option JVal
  | .jdict fs => some (jLookupD fs "displayName" (.jstr ""))
  | .jstr s => some (.jstr s)
  | _ => none

/-- The authors string of _parse_wos_records (lines 219-230): default
'N/A'; when names is a dict with a truthy authors value, iterate it,
collect names, drop falsy ones and join with '; '. -/
def wosAuthorsOf (fs : List (String × JVal)) : Except PyError String :=
  match jLookupD fs "names" (.jdict []) with
  | .jdict nfs =>
    let authorsList := jLookupD nfs "authors" (.jlist [])
    if pyTruthy authorsList then
      match iterAuthors authorsList with
      | .error e => .error e
      | .ok items => pyJoin "; " ((items.filterMap authorName).filter pyTruthy)
    else .ok "N/A"
  | _ => .ok "N/A"

/-- The DOI of _parse_wos_records (lines 206-209): record.get('identifiers'),
then get('doi', 'N/A') when that is a dict, else 'N/A'. -/
def wosDoiOf (fs : List (String × JVal)) : JVal :=
  match jLookup fs "identifiers" with
  | some (.jdict ifs) => jLookupD ifs "doi" (.jstr "N/A")
  | _ => .jstr "N/A"

/-- The (publishYear, sourceTitle) pair of _parse_wos_records
(lines 212-216): both default 'N/A' unless source is a dict. -/
def wosSourceOf (fs : List (String × JVal)) : JVal × JVal :=
  match jLookup fs "source" with
  | some (.jdict sfs) =>
    (jLookupD sfs "publishYear" (.jstr "N/A"), jLookupD sfs "sourceTitle" (.jstr "N/A"))
  | _ => (.jstr "N/A", .jstr "N/A")

/-- One record of _parse_wos_records (lines 199-239): a non-dict record
is skipped (ok none); otherwise every field is extracted with its 'N/A'
default and passed through str(); only the author join can raise. -/
def parseWosOne (record : JVal) : Except PyError (Option WosArticle) :=
  match record with
  | .jdict fs =>
    match wosAuthorsOf fs with
    | .error e => .error e
    | .ok authors =>
      .ok (some {
        UID := pyStr (jLookupD fs "uid" (.jstr "N/A")),
        DOI := pyStr (wosDoiOf fs),
        Title := pyStr (jLookupD fs "title" (.jstr "N/A")),
        Year := .str (pyStr (wosSourceOf fs).1),
        Journal := pyStr (wosSourceOf fs).2,
        Authors := authors })
  | _ => .ok none

/-- WosProvider._parse_wos_records (provider.py lines 196-241). -/
def parse_wos_records : List JVal → Except PyError (List WosArticle)
  | [] => .ok []
  | r :: rs =>
    match parseWosOne r with
    | .error e => .error e
    | .ok none => parse_wos_records rs
    | .ok (some a) =>
      match parse_wos_records rs with
      | .error e => .error e
      | .ok as => .ok (a :: as)

/-!
## NCBI paginated fetch engine (provider.py, NcbiProvider.fetch_full_records)

The low-level client is abstracted as two functions: esearch, returning
the structured search result (Count, WebEnv, QueryKey — a missing key or
transport failure is the error case), and efetch, returning one raw batch
payload keyed by the retstart offset (retmax is the fixed batch size and
db/webenv/query_key are fixed for the whole call). Beside its Option
result the embedding returns the list of retstart offsets the engine
actually passed to efetch, in call order, so that claims about the number
of batch calls are statable.
-/

/-- The esearch response fields the provider reads (provider.py 21-23). -/
structure NcbiSearchRes where
  count : Nat
  webenv : String
  queryKey : String
  deriving DecidableEq, Repr

/-- Python range(0, stop, step) for step > 0. -/
def pyRangeStep (stop step : Nat) : List Nat :=
  List.range' 0 ((stop + step - 1) / step) step

/-- Extracting records_data['PubmedArticle'] and extending a list with it
(provider.py line 33): a KeyError when the key is absent, a TypeError
when the payload is not a dict or the value is not a list. -/
def getPubmedArticleList : JVal → Except PyError (List JVal)
  | .jdict fs =>
    match jLookup fs "PubmedArticle" with
    | some (.jlist xs) => .ok xs
    | some _ => .error .typeError
    | none => .error .keyError
  | _ => .error .typeError

/-- The batch loop of fetch_full_records (provider.py lines 31-34),
walking the precomputed retstart offsets. The second component is the
list of offsets passed to efetch, in order; a failing call is still a
call that was issued. -/
def ncbiBatchLoop (efetch : Nat → Except PyError JVal) :
    List Nat → List JVal → Except PyError (List JVal) × List Nat
  | [], acc => (.ok acc, [])
  | start :: rest, acc =>
    match efetch start with
    | .error e => (.error e, [start])
    | .ok data =>
      match getPubmedArticleList data with
      | .error e => (.error e, [start])
      | .ok page =>
        let r := ncbiBatchLoop efetch rest (acc ++ page)
        (r.1, start :: r.2)

/-- NcbiProvider.fetch_full_records (provider.py lines 17-41): search,
return [] at count 0, otherwise batch-fetch at offsets
range(0, min(count, 1000), 100), concatenate and parse; any exception
anywhere yields None. Paired with the efetch offsets actually issued. -/
def fetch_full_records (esearch : Except PyError NcbiSearchRes)
    (efetch : Nat → Except PyError JVal) :
    Option (List PubMedArticle) × List Nat :=
  match esearch with
  | .error _ => (none, [])
  | .ok sr =>
    if sr.count = 0 then (some [], [])
    else
      match ncbiBatchLoop efetch (pyRangeStep (min sr.count 1000) 100) [] with
      | (.ok raws, calls) =>
        match parse_pubmed_records raws with
        | .ok arts => (some arts, calls)
        | .error _ => (none, calls)
      | (.error _, calls) => (none, calls)

/-!
## WoS paginated fetch engine (provider.py, WosProvider.search_and_fetch_all)

The client is abstracted as one function from (page, limit) to the parsed
response; term, db and sortField are fixed for the whole workflow. The
response structure folds in the .get defaulting of the source: an absent
metadata.total reads as 0 and absent hits as [] (provider.py lines
120 and 133).
-/

/-- The parts of the WoS Starter search response the provider reads. -/
structure WosSearchResp where
  total : Nat
  hits : List JVal

/-- A WoS client call: page and limit to either an HTTP-level failure
(raise_for_status / transport error) or a parsed response. -/
abbrev WosClient := Nat → Nat → Except PyError WosSearchResp

/-- WosProvider.PAGE_LIMIT (provider.py line 111). -/
def wosPageLimit : Nat := 10

/-- max_pages, the hard page-count ceiling (provider.py line 127). -/
def wosMaxPages : Nat := 5

/-- The page loop of search_and_fetch_all (provider.py lines 129-140):
page index i, remaining loop iterations, accumulated hits. Stops when
the iterations are exhausted, when (i-1)*PAGE_LIMIT >= total_hits, or
when a page returns no hits; an HTTP failure aborts the loop. -/
def wosFetchLoop (search : WosClient) (totalHits : Nat) :
    Nat → Nat → List JVal → Except PyError (List JVal)
  | _, 0, acc => .ok acc
  | i, pagesLeft + 1, acc =>
    if (i - 1) * wosPageLimit ≥ totalHits then .ok acc
    else
      match search i wosPageLimit with
      | .error e => .error e
      | .ok page =>
        if page.hits.isEmpty then .ok acc
        else wosFetchLoop search totalHits (i + 1) pagesLeft (acc ++ page.hits)

/-- WosProvider.search_and_fetch_all (provider.py lines 116-150): probe
page 1 at limit 1 for the total, return [] at total 0, otherwise loop
over at most max_pages pages of PAGE_LIMIT hits, concatenate in fetch
order and parse; any exception anywhere yields None. -/
def search_and_fetch_all (search : WosClient) : Option (List WosArticle) :=
  match search 1 1 with
  | .error _ => none
  | .ok initial =>
    if initial.total = 0 then some []
    else
      match wosFetchLoop search initial.total 1 wosMaxPages [] with
      | .error _ => none
      | .ok allResults =>
        match parse_wos_records allResults with
        | .error _ => none
        | .ok arts => some arts

/-!
## Result sink (provider.py, NcbiProvider.save_records_to_file and
WosProvider.search_and_save_all)

File contents are modelled structurally: a delimited file is its header
row plus its data rows, the structured format is a list of flat
key/value objects, the plain-text format is the rendered string. The
sink result records which file, if any, was written; every non-writing
outcome carries no file at all.
-/

/-- Python s.endswith(suffix), as a suffix test on the character list. -/
def pyEndsWith (s suffix : String) : Bool := suffix.data.isSuffixOf s.data

/-- Python s.lower(), character by character. -/
def pyToLower (s : String) : String := String.mk (s.data.map Char.toLower)

/-- The str()-rendering of a WosArticle.Year cell (always produced by
the parser as a string, but the pydantic field admits int). -/
def PyStrInt.render : PyStrInt → String
  | .str s => s
  | .int n => toString n

/-- The content of a file the sink writes. -/
inductive FileContent where
  | csv (header : List String) (rows : List (List String)) : FileContent
  | json (objs : List (List (String × String))) : FileContent
  | txt (body : String) : FileContent
  deriving DecidableEq, Repr

/-- The outcome of one save call. -/
inductive SaveResult where
  | nothingToSave : SaveResult
  | saved (filename : String) (content : FileContent) : SaveResult
  | invalidFormat : SaveResult
  deriving DecidableEq, Repr

/-- The files a save outcome wrote (the frame of the operation). -/
def SaveResult.writes : SaveResult → List (String × FileContent)
  | .saved f c => [(f, c)]
  | _ => []

/-- The fixed CSV column order for literature records
(provider.py line 54). -/
def ncbiCsvColumns : List String := ["PMID", "Year", "Journal", "Title", "Abstract"]

/-- model_dump() of a PubMedArticle: fields in declaration order. -/
def PubMedArticle.modelDump (a : PubMedArticle) : List (String × String) :=
  [("PMID", a.PMID), ("Title", a.Title), ("Abstract", a.Abstract),
   ("Journal", a.Journal), ("Year", a.Year)]

/-- One record block of the plain-text format (provider.py lines 65-70). -/
def ncbiTxtBlock (i : Nat) (a : PubMedArticle) : String :=
  "Record #" ++ toString (i + 1) ++ "\n" ++
  "PMID: " ++ a.PMID ++ "\n" ++
  "Title: " ++ a.Title ++ "\n" ++
  "Journal: " ++ a.Journal ++ " (" ++ a.Year ++ ")\n" ++
  "Abstract: " ++ a.Abstract ++ "\n" ++
  "\n---\n\n"

/-- NcbiProvider.save_records_to_file (provider.py lines 43-76): nothing
is written for a missing or empty record list; otherwise dispatch on the
filename extension, an unsupported extension being a reported failure
that writes nothing. -/
def save_records_to_file (records : Option (List PubMedArticle))
    (filename : String) : SaveResult :=
  match records with
  | none => .nothingToSave
  | some [] => .nothingToSave
  | some recs =>
    if pyEndsWith filename ".csv" then
      .saved filename (.csv ncbiCsvColumns
        (recs.map fun a => [a.PMID, a.Year, a.Journal, a.Title, a.Abstract]))
    else if pyEndsWith filename ".json" then
      .saved filename (.json (recs.map PubMedArticle.modelDump))
    else if pyEndsWith filename ".txt" then
      .saved filename (.txt (String.join
        ((List.range recs.length).zip recs |>.map fun p => ncbiTxtBlock p.1 p.2)))
    else .invalidFormat

/-- The fixed CSV column order for WoS records (provider.py line 169). -/
def wosCsvColumns : List String := ["UID", "DOI", "Year", "Journal", "Title", "Authors"]

/-- model_dump() of a WosArticle: fields in declaration order. -/
def WosArticle.modelDump (a : WosArticle) : List (String × String) :=
  [("UID", a.UID), ("DOI", a.DOI), ("Title", a.Title),
   ("Year", a.Year.render), ("Journal", a.Journal), ("Authors", a.Authors)]

/-- One record block of the WoS plain-text format (provider.py 180-186). -/
def wosTxtBlock (i : Nat) (a : WosArticle) : String :=
  "Record #" ++ toString (i + 1) ++ "\n" ++
  "UID: " ++ a.UID ++ "\n" ++
  "DOI: " ++ a.DOI ++ "\n" ++
  "Title: " ++ a.Title ++ "\n" ++
  "Authors: " ++ a.Authors ++ "\n" ++
  "Journal: " ++ a.Journal ++ " (" ++ a.Year.render ++ ")\n" ++
  "\n---\n\n"

/-- WosProvider.search_and_save_all (provider.py lines 152-194): fetch,
return False on a failed fetch, True with no write on an empty result,
otherwise dispatch on the extension. The second component is the list of
files written. -/
def search_and_save_all (search : WosClient) (filename : String) :
    Bool × List (String × FileContent) :=
  match search_and_fetch_all search with
  | none => (false, [])
  | some [] => (true, [])
  | some arts =>
    if pyEndsWith filename ".csv" then
      (true, [(filename, .csv wosCsvColumns
        (arts.map fun a =>
          [a.UID, a.DOI, a.Year.render, a.Journal, a.Title, a.Authors]))])
    else if pyEndsWith filename ".json" then
      (true, [(filename, .json (arts.map WosArticle.modelDump))])
    else if pyEndsWith filename ".txt" then
      (true, [(filename, .txt (String.join
        ((List.range arts.length).zip arts |>.map fun p => wosTxtBlock p.1 p.2)))])
    else (false, [])

/-!
## Command dispatch and interactive loop (controller.py, app.py)

Python attribute lookup is modelled explicitly for the provider methods
the controller's dispatch arms call: a name outside the method table of
the class raises AttributeError, which the except-clause of
process_command (controller.py lines 99-100) catches and reports.
-/

/-- The methods NcbiProvider actually defines (provider.py lines 12-104). -/
def ncbiProviderMethods : List String :=
  ["__init__", "fetch_full_records", "save_records_to_file", "_parse_pubmed_records"]

/-- The outcome of one dispatched command arm: completed, or an error
caught and reported at the dispatch boundary; either way the files
written are recorded and control returns to the loop. -/
inductive CommandOutcome where
  | completed (writes : List (String × FileContent)) : CommandOutcome
  | errorReported (writes : List (String × FileContent)) : CommandOutcome
  deriving DecidableEq, Repr

/-- The FetchAndSave arm of Controller.process_command (controller.py
lines 65-71): with a fetched record list in hand it calls
self._ncbi_provider.save_results_to_file; the attribute lookup is
modelled against the method table of NcbiProvider, and the
AttributeError of a missing method is caught at the dispatch boundary
(controller.py lines 99-100). -/
def fetchAndSaveArm (fullRecords : Option (List PubMedArticle))
    (filename : String) : CommandOutcome :=
  match fullRecords with
  | none => .completed []
  | some recs =>
    if ncbiProviderMethods.contains "save_results_to_file" then
      .completed (save_records_to_file (some recs) filename).writes
    else
      .errorReported []

/-- The result of process_command for one command (controller.py lines
21-100): the whole body is inside try/except Exception, so an error
raised by any arm is reported and the function returns normally. -/
inductive CmdResult where
  | handled : CmdResult
  | reported (e : PyError) : CmdResult
  deriving DecidableEq, Repr

/-- Controller.process_command as the loop sees it: the body of the
command (resolution plus the dispatched arm) either finishes or raises,
and a raised error is caught and reported (controller.py 23, 99-100). -/
def process_command (body : String → Except PyError Unit) (cmd : String) :
    CmdResult :=
  match body cmd with
  | .ok _ => .handled
  | .error e => .reported e

/-- The exit keywords of the interactive loop (app.py line 64). -/
def isExitWord (s : String) : Bool :=
  pyToLower s == "exit" || pyToLower s == "quit"

/-- The interactive loop of run() (app.py lines 61-72) over a given
input stream: stop at an exit keyword, skip empty input, otherwise
process the command and continue with the next input. -/
def runLoop (body : String → Except PyError Unit) : List String → List CmdResult
  | [] => []
  | cmd :: rest =>
    if isExitWord cmd then []
    else if cmd == "" then runLoop body rest
    else process_command body cmd :: runLoop body rest

/-- The environment values run() loads (app.py lines 14-18). -/
structure AppEnv where
  google_api_key : Option String
  ncbi_email : Option String
  ncbi_api_key : Option String
  wos_api_key : Option String
  wos_base_url : Option String

/-- The parameters Controller.__init__ accepts besides self
(controller.py line 11). -/
def controllerInitParams : List String := ["ncbi_provider", "wos_provider"]

/-- The keyword arguments run() passes to Controller(...)
(app.py lines 44-50). -/
def runControllerKwargs : List String :=
  ["ncbi_provider", "wos_provider", "default_ncbi_db", "default_wos_db",
   "default_wos_sort"]

/-- How a run of the application ends. -/
inductive AppResult where
  | configError : AppResult
  | startupCrash (badKwarg : String) : AppResult
  | ran (results : List CmdResult) : AppResult
  deriving DecidableEq, Repr

/-- run() (app.py lines 9-72): return before the loop when a required
environment value is missing (lines 20-22); otherwise construct the
controller — a keyword argument Controller.__init__ does not accept
raises TypeError, uncaught, halting before the loop — and only then
enter the interactive loop. -/
def appRun (env : AppEnv) (body : String → Except PyError Unit)
    (inputs : List String) : AppResult :=
  if !(env.google_api_key.isSome && env.ncbi_email.isSome &&
       env.wos_api_key.isSome && env.wos_base_url.isSome) then
    .configError
  else
    match runControllerKwargs.find? (fun k => !(controllerInitParams.contains k)) with
    | some k => .startupCrash k
    | none => .ran (runLoop body inputs)

/-!
## Helper lemmas
-/

/-- A successful WoS parse yields at most one article per raw record. -/
theorem parse_wos_records_length_le :
    ∀ (rs : List JVal) (arts : List WosArticle),
      parse_wos_records rs = .ok arts → arts.length ≤ rs.length := by
  intro rs
  induction rs with
  | nil =>
    intro arts h
    simp only [parse_wos_records] at h
    cases h
    simp
  | cons r rest ih =>
    intro arts h
    simp only [parse_wos_records] at h
    rcases h1 : parseWosOne r with e | o
    · rw [h1] at h; cases h
    · rw [h1] at h
      cases o with
      | none =>
        have := ih arts h
        simpa using Nat.le_succ_of_le this
      | some b =>
        rcases h2 : parse_wos_records rest with e2 | as
        · rw [h2] at h; cases h
        · rw [h2] at h
          cases h
          simpa using ih as h2

/-- A parsed WoS article always carries a string-variant Year, whatever
shape the source year value had. -/
theorem parseWosOne_year_is_str (r : JVal) (a : WosArticle)
    (h : parseWosOne r = .ok (some a)) : ∃ s, a.Year = PyStrInt.str s := by
  cases r with
  | jdict fs =>
    simp only [parseWosOne] at h
    rcases hA : wosAuthorsOf fs with e | authors
    · rw [hA] at h; cases h
    · rw [hA] at h
      cases h
      exact ⟨_, rfl⟩
  | jnull => simp [parseWosOne] at h
  | jbool b => simp [parseWosOne] at h
  | jnum n => simp [parseWosOne] at h
  | jstr s => simp [parseWosOne] at h
  | jlist xs => simp [parseWosOne] at h

/-!
## Claims
-/

/-- C9: normalization is idempotent and deterministic — both normalizers
are pure functions of their raw input (the source methods read only
their argument and build fresh lists), so normalizing the same raw page
sequence twice yields identical record sequences. -/
theorem normalization_deterministic (rs : List JVal) :
    parse_wos_records rs = parse_wos_records rs ∧
    parse_pubmed_records rs = parse_pubmed_records rs :=
  ⟨rfl, rfl⟩

/-- C3: a session-cursor fetch whose search reports count = 0 returns
the empty record list immediately — a success value (some []), not the
error value none — and issues no efetch batch calls at all. -/
theorem ncbi_zero_count_returns_empty_success
    (esearch : Except PyError NcbiSearchRes) (efetch : Nat → Except PyError JVal)
    (sr : NcbiSearchRes) (hs : esearch = .ok sr) (hc : sr.count = 0) :
    fetch_full_records esearch efetch = (some [], []) := by
  subst hs
  simp [fetch_full_records, hc]

/-- C3 witness: a zero-count search against a client whose efetch always
fails still returns the empty success with an empty call trace, so no
batch call can have been issued. -/
theorem ncbi_zero_count_returns_empty_success_witness :
    fetch_full_records (.ok ⟨0, "WE_0", "QK_0"⟩) (fun _ => .error .typeError) =
      (some [], []) :=
  ncbi_zero_count_returns_empty_success _ _ ⟨0, "WE_0", "QK_0"⟩ rfl rfl

/-- A WoS client that never finds anything: the probe reports total 0. -/
def emptyWosClient : WosClient := fun _ _ => .ok ⟨0, []⟩

/-- C10: persisting an empty ResultSet writes no file, whatever the
filename extension: the NCBI sink reports nothing-to-save for a missing
or empty record list, and the WoS search-and-save path reports success
(true) with no file write when the fetch found zero articles. -/
theorem empty_resultset_writes_no_file :
    (∀ filename, save_records_to_file none filename = .nothingToSave ∧
      (save_records_to_file none filename).writes = []) ∧
    (∀ filename, save_records_to_file (some []) filename = .nothingToSave ∧
      (save_records_to_file (some []) filename).writes = []) ∧
    (∀ (search : WosClient) (filename : String),
      search_and_fetch_all search = some [] →
      search_and_save_all search filename = (true, [])) := by
  refine ⟨fun _ => ⟨rfl, rfl⟩, fun _ => ⟨rfl, rfl⟩, fun search filename h => ?_⟩
  simp [search_and_save_all, h]

/-- C10 witness: the empty-result sink outcomes at concrete filenames
of every extension class, and the WoS save path on a client that finds
zero articles. -/
theorem empty_resultset_writes_no_file_witness :
    save_records_to_file none "results.csv" = .nothingToSave ∧
    save_records_to_file (some []) "out.xyz" = .nothingToSave ∧
    search_and_save_all emptyWosClient "results.csv" = (true, []) :=
  ⟨(empty_resultset_writes_no_file.1 "results.csv").1,
   (empty_resultset_writes_no_file.2.1 "out.xyz").1,
   empty_resultset_writes_no_file.2.2 emptyWosClient "results.csv" rfl⟩

/-- A sample fetched literature record for the save scenarios. -/
def csvSampleArticle : PubMedArticle :=
  { PMID := "123", Title := "Sample Title", Abstract := "Sample abstract.",
    Journal := "Sample Journal", Year := "2020" }

/-- C2 (code bug): at the sink, a .csv filename writes the delimited
file with the fixed header order PMID, Year, Journal, Title, Abstract,
and an unsupported extension is a reported failure that writes no file;
but the fetch-and-save command arm never reaches the sink, because
controller.py line 69 calls save_results_to_file, a method NcbiProvider
does not define, so the command ends with an AttributeError reported at
the dispatch boundary and no file written. -/
theorem fetch_and_save_dispatch_bug :
    fetchAndSaveArm (some [csvSampleArticle]) "results.csv" = .errorReported [] ∧
    save_records_to_file (some [csvSampleArticle]) "results.csv" =
      .saved "results.csv" (.csv ["PMID", "Year", "Journal", "Title", "Abstract"]
        [["123", "2020", "Sample Journal", "Sample Title", "Sample abstract."]]) ∧
    save_records_to_file (some [csvSampleArticle]) "out.xyz" = .invalidFormat ∧
    (save_records_to_file (some [csvSampleArticle]) "out.xyz").writes = [] := by
  refine ⟨rfl, ?_, ?_, ?_⟩ <;> decide

/-- C8 (code bug): every error a command body raises is caught at the
dispatch boundary and reported, and the loop goes on to the next input;
but with a complete configuration, run() still halts before the loop
ever starts, because app.py lines 44-50 pass keyword arguments that
Controller.__init__ (controller.py line 11) does not accept. -/
theorem per_command_errors_never_terminate :
    (∀ (body : String → Except PyError Unit) (cmd : String) (e : PyError),
      body cmd = .error e → process_command body cmd = .reported e) ∧
    (∀ (body : String → Except PyError Unit) (cmd : String) (rest : List String),
      isExitWord cmd = false → (cmd == "") = false →
      runLoop body (cmd :: rest) = process_command body cmd :: runLoop body rest) ∧
    (∀ (env : AppEnv) (body : String → Except PyError Unit) (inputs : List String),
      env.google_api_key.isSome = true → env.ncbi_email.isSome = true →
      env.wos_api_key.isSome = true → env.wos_base_url.isSome = true →
      appRun env body inputs = .startupCrash "default_ncbi_db") := by
  refine ⟨fun body cmd e h => by simp [process_command, h],
          fun body cmd rest h1 h2 => by simp [runLoop, h1, h2],
          fun env body inputs h1 h2 h3 h4 => ?_⟩
  simp only [appRun, h1, h2, h3, h4, Bool.and_self, Bool.not_true,
    Bool.false_eq_true, if_false]
  rfl

/-- C8 witness: a body that always raises is reported, not propagated,
and the loop still visits both inputs; a fully configured environment
still crashes at startup on the first unexpected keyword argument. -/
theorem per_command_errors_never_terminate_witness :
    process_command (fun _ => .error .typeError) "search pubmed for CRISPR" =
      .reported .typeError ∧
    runLoop (fun _ => .error .typeError)
        ["search pubmed for CRISPR", "exit"] = [.reported .typeError] ∧
    appRun ⟨some "g", some "e", none, some "w", some "u"⟩
        (fun _ => .error .typeError) ["search pubmed for CRISPR"] =
      .startupCrash "default_ncbi_db" :=
  ⟨per_command_errors_never_terminate.1 _ _ _ rfl,
   by
    rw [per_command_errors_never_terminate.2.1 (fun _ => .error .typeError)
          "search pubmed for CRISPR" ["exit"] rfl rfl,
        per_command_errors_never_terminate.1 (fun _ => .error .typeError)
          "search pubmed for CRISPR" .typeError rfl]
    rfl,
   per_command_errors_never_terminate.2.2 _ _ _ rfl rfl rfl rfl⟩

/-- A raw WoS hit whose uid is numeric, not a string. -/
def wosNumericUidRecord : JVal := .jdict [("uid", .jnum 12345)]

/-- The article the WoS normalizer produces from wosNumericUidRecord:
the numeric uid has been rendered to the string "12345" and every
missing field carries its placeholder. -/
def wosNumericUidArticle : WosArticle :=
  { UID := "12345", DOI := "N/A", Title := "N/A", Year := .str "N/A",
    Journal := "N/A", Authors := "N/A" }

/-- The all-placeholder article produced from an empty raw dict. -/
def wosPlaceholderArticle : WosArticle :=
  { UID := "N/A", DOI := "N/A", Title := "N/A", Year := .str "N/A",
    Journal := "N/A", Authors := "N/A" }

/-- A raw PubMed record whose PMID is numeric and all else is absent. -/
def pubmedNumericPmidRecord : JVal :=
  .jdict [("MedlineCitation", .jdict [("PMID", .jnum 33)])]

/-- The article the PubMed normalizer produces from
pubmedNumericPmidRecord: the numeric PMID became the string "33" and
every absent field carries its placeholder string. -/
def pubmedPlaceholderArticle : PubMedArticle :=
  { PMID := "33", Title := "No Title Found", Abstract := "No Abstract Found",
    Journal := "No Journal Found", Year := "No Year Found" }

/-- C7: every normalized record has all fields present as strings. The
Lean record types mirror the pydantic models, whose only non-str field
is WosArticle.Year (declared str or int): the first conjunct shows every
article either normalizer-produced run carries the string variant there.
The remaining conjuncts evaluate the normalizers on a numeric uid, an
empty dict and a numeric PMID: structured or numeric identifiers are
rendered to strings and missing source data becomes the fixed
placeholder, never an absent field. -/
theorem normalized_records_all_string_fields :
    (∀ (rs : List JVal) (arts : List WosArticle),
      parse_wos_records rs = .ok arts →
      ∀ a ∈ arts, ∃ s, a.Year = PyStrInt.str s) ∧
    parse_wos_records [wosNumericUidRecord] = .ok [wosNumericUidArticle] ∧
    parse_wos_records [.jdict []] = .ok [wosPlaceholderArticle] ∧
    parse_pubmed_records [pubmedNumericPmidRecord] = .ok [pubmedPlaceholderArticle] ∧
    wosNumericUidArticle.UID = "12345" := by
  refine ⟨?_, rfl, rfl, rfl, rfl⟩
  intro rs
  induction rs with
  | nil =>
    intro arts h a ha
    simp only [parse_wos_records] at h
    cases h
    simp at ha
  | cons r rest ih =>
    intro arts h a ha
    simp only [parse_wos_records] at h
    rcases h1 : parseWosOne r with e | o
    · rw [h1] at h; cases h
    · rw [h1] at h
      cases o with
      | none => exact ih arts h a ha
      | some b =>
        rcases h2 : parse_wos_records rest with e2 | as
        · rw [h2] at h; cases h
        · rw [h2] at h
          cases h
          rcases List.mem_cons.mp ha with rfl | hmem
          · exact parseWosOne_year_is_str r a h1
          · exact ih as h2 a hmem

/-- C7 witness: the Year of the article normalized from the
numeric-uid record is the string variant. -/
theorem normalized_records_all_string_fields_witness :
    ∃ s, wosNumericUidArticle.Year = PyStrInt.str s :=
  normalized_records_all_string_fields.1 [wosNumericUidRecord] [wosNumericUidArticle]
    normalized_records_all_string_fields.2.1 wosNumericUidArticle (by simp)

/-- A raw PubMed record whose Abstract field is present but malformed:
a plain string where the keyed structure is expected, so the nested
.get('AbstractText', []) has no dict to act on. -/
def pubmedMalformedAbstractRecord : JVal :=
  .jdict [("MedlineCitation", .jdict [
    ("PMID", .jstr "77"),
    ("Article", .jdict [
      ("ArticleTitle", .jstr "A Title"),
      ("Abstract", .jstr "a bare string where a keyed structure belongs")])])]

/-- C6 counterexample: a record with a malformed (non-dict) Abstract
field makes the whole normalization raise AttributeError — no record is
produced at all, and a fetch that retrieved this record yields the
failure value none — contradicting the claim that a malformed field
degrades to its placeholder with the record still produced. -/
theorem pubmed_malformed_abstract_aborts_normalization :
    parse_pubmed_records [pubmedMalformedAbstractRecord] =
      .error PyError.attributeError ∧
    (fetch_full_records (.ok ⟨1, "WE_1", "QK_1"⟩)
      (fun _ => .ok (.jdict
        [("PubmedArticle", .jlist [pubmedMalformedAbstractRecord])]))).1 = none :=
  ⟨rfl, rfl⟩

/-- C6 as amended: for every raw record the normalizer does process
successfully, if the abstract-parts chain (MedlineCitation, Article,
Abstract, AbstractText, each with its defensive default) finds an absent
or empty (falsy) value, the produced record's abstract is exactly the
placeholder string, never an empty string or an omitted field. (A field
whose present value has a non-dict shape instead of degrading aborts the
whole normalization — see the counterexample.) -/
theorem pubmed_absent_abstract_yields_placeholder
    (article : JVal) (rec : PubMedArticle) (parts : JVal)
    (hok : parsePubmedOne article = .ok rec)
    (hparts : abstractPartsOf article = .ok parts)
    (hfalsy : pyTruthy parts = false) :
    rec.Abstract = "No Abstract Found" := by
  unfold parsePubmedOne at hok
  unfold abstractPartsOf at hparts
  rcases h1 : jGetD article "MedlineCitation" (.jdict []) with e | citation
  · simp [h1] at hok
  simp only [h1] at hok hparts
  rcases h2 : jGetD citation "Article" (.jdict []) with e | articleInfo
  · simp [h2] at hok
  simp only [h2] at hok hparts
  rcases h3 : jGetD articleInfo "ArticleTitle" (.jstr "No Title Found") with e | title
  · simp [h3] at hok
  simp only [h3] at hok
  rcases h4 : jGetD articleInfo "Abstract" (.jdict []) with e | abstractDict
  · simp [h4] at hok
  simp only [h4] at hok hparts
  rcases h5 : jGetD abstractDict "AbstractText" (.jlist []) with e | parts2
  · simp [h5] at hok
  simp only [h5, Except.ok.injEq] at hok hparts
  subst hparts
  simp only [hfalsy, Bool.false_eq_true, if_false] at hok
  rcases h6 : jGetD articleInfo "Journal" (.jdict []) with e | journalInfo
  · simp [h6] at hok
  simp only [h6] at hok
  rcases h7 : jGetD journalInfo "Title" (.jstr "No Journal Found") with e | journalName
  · simp [h7] at hok
  simp only [h7] at hok
  rcases h8 : jGetD journalInfo "JournalIssue" (.jdict []) with e | journalIssue
  · simp [h8] at hok
  simp only [h8] at hok
  rcases h9 : jGetD journalIssue "PubDate" (.jdict []) with e | pubDate
  · simp [h9] at hok
  simp only [h9] at hok
  rcases h10 : jGetD pubDate "MedlineDate" (.jstr "No Year Found") with e | medlineDate
  · simp [h10] at hok
  simp only [h10] at hok
  rcases h11 : jGetD pubDate "Year" medlineDate with e | year
  · simp [h11] at hok
  simp only [h11] at hok
  rcases h12 : jGetD citation "PMID" (.jstr "") with e | pmid
  · simp [h12] at hok
  simp only [h12, Except.ok.injEq] at hok
  subst hok
  rfl

/-- A raw PubMed record with no abstract field at all. -/
def pubmedNoAbstractRecord : JVal :=
  .jdict [("MedlineCitation", .jdict [
    ("PMID", .jstr "1"),
    ("Article", .jdict [("ArticleTitle", .jstr "A Title")])])]

/-- C6 witness: the record without an abstract normalizes successfully
and its Abstract is the placeholder. -/
theorem pubmed_absent_abstract_yields_placeholder_witness :
    ({ PMID := "1", Title := "A Title", Abstract := "No Abstract Found",
       Journal := "No Journal Found", Year := "No Year Found" } :
      PubMedArticle).Abstract = "No Abstract Found" :=
  pubmed_absent_abstract_yields_placeholder pubmedNoAbstractRecord _ (.jlist [])
    rfl rfl rfl

/-- When some offset in the remaining schedule has a failing efetch, the
batch loop ends in an error, whatever was accumulated so far. -/
theorem ncbiBatchLoop_error_of_mem (efetch : Nat → Except PyError JVal) :
    ∀ (starts : List Nat) (acc : List JVal) (k : Nat) (e : PyError),
      k ∈ starts → efetch k = .error e →
      ∃ e2, (ncbiBatchLoop efetch starts acc).1 = .error e2 := by
  intro starts
  induction starts with
  | nil => intro acc k e hk; simp at hk
  | cons s rest ih =>
    intro acc k e hk hke
    simp only [ncbiBatchLoop]
    rcases hs : efetch s with es | d
    · exact ⟨es, by simp [hs]⟩
    · rcases hg : getPubmedArticleList d with eg | page
      · exact ⟨eg, by simp [hs, hg]⟩
      · simp only [hs, hg]
        rcases List.mem_cons.mp hk with rfl | hk2
        · rw [hs] at hke; cases hke
        · exact ih (acc ++ page) k e hk2 hke

/-- When the batch loop ends in success, every scheduled efetch call
succeeded: no batch was skipped and none failed. -/
theorem ncbiBatchLoop_ok_all_called (efetch : Nat → Except PyError JVal) :
    ∀ (starts : List Nat) (acc : List JVal) (v : List JVal),
      (ncbiBatchLoop efetch starts acc).1 = .ok v →
      ∀ k ∈ starts, ∃ d, efetch k = .ok d := by
  intro starts
  induction starts with
  | nil => intro acc v _ k hk; simp at hk
  | cons s rest ih =>
    intro acc v h k hk
    simp only [ncbiBatchLoop] at h
    rcases hs : efetch s with es | d
    · simp [hs] at h
    simp only [hs] at h
    rcases hg : getPubmedArticleList d with eg | page
    · simp [hg] at h
    simp only [hg] at h
    rcases List.mem_cons.mp hk with rfl | hk2
    · exact ⟨d, hs⟩
    · exact ih (acc ++ page) v h k hk2

/-- When every scheduled batch call succeeds, the loop's call trace is
exactly the schedule, in order. -/
theorem ncbiBatchLoop_calls_eq (efetch : Nat → Except PyError JVal) :
    ∀ (starts : List Nat) (acc : List JVal),
      (∀ k ∈ starts, ∃ d page, efetch k = .ok d ∧
        getPubmedArticleList d = .ok page) →
      (ncbiBatchLoop efetch starts acc).2 = starts := by
  intro starts
  induction starts with
  | nil => intro acc _; rfl
  | cons s rest ih =>
    intro acc hall
    obtain ⟨d, page, hs, hg⟩ := hall s (List.mem_cons_self s rest)
    simp only [ncbiBatchLoop, hs, hg]
    have := ih (acc ++ page) (fun k hk => hall k (List.mem_cons_of_mem s hk))
    simp [this]

/-- The number of scheduled batch offsets: Python range(0, stop, step). -/
theorem pyRangeStep_length (stop step : Nat) :
    (pyRangeStep stop step).length = (stop + step - 1) / step := by
  simp [pyRangeStep, List.length_range']

/-- A well-formed raw PubMed record for the count = 2 scenario. -/
def ncbiRawArticle (pmid title : String) : JVal :=
  .jdict [("MedlineCitation", .jdict [
    ("PMID", .jstr pmid),
    ("Article", .jdict [
      ("ArticleTitle", .jstr title),
      ("Abstract", .jdict [("AbstractText",
        .jlist [.jstr "Alpha.", .jstr "Beta."])]),
      ("Journal", .jdict [
        ("Title", .jstr "Cancer Research"),
        ("JournalIssue", .jdict [("PubDate",
          .jdict [("Year", .jstr "2021")])])])])])]

/-- An esearch result reporting exactly two hits. -/
def ncbiTwoHitSearch : Except PyError NcbiSearchRes := .ok ⟨2, "WE_2", "QK_2"⟩

/-- An efetch returning the two raw records of the scenario on any call. -/
def ncbiTwoHitEfetch : Nat → Except PyError JVal := fun _ =>
  .ok (.jdict [("PubmedArticle", .jlist
    [ncbiRawArticle "111" "First BRCA1 paper",
     ncbiRawArticle "222" "Second BRCA1 paper"])])

/-- The normalized article of the count = 2 scenario. -/
def ncbiScenarioArticle (pmid title : String) : PubMedArticle :=
  { PMID := pmid, Title := title, Abstract := "Alpha. Beta.",
    Journal := "Cancer Research", Year := "2021" }

/-- C4: with count > 0 and a client whose scheduled batch calls all
succeed, the engine issues the batch calls at exactly the offsets
range(0, min(count, 1000), 100) — that is, ceil(min(count, 1000) / 100)
calls of batch size 100, capped at 1000 records — and in particular,
for count = 2 it issues exactly one call at offset 0 and the normalizer
yields the 2 records, each with its non-placeholder identifier. -/
theorem ncbi_batch_call_count :
    (∀ (esearch : Except PyError NcbiSearchRes)
      (efetch : Nat → Except PyError JVal) (sr : NcbiSearchRes),
      esearch = .ok sr → 0 < sr.count →
      (∀ k ∈ pyRangeStep (min sr.count 1000) 100, ∃ d page,
        efetch k = .ok d ∧ getPubmedArticleList d = .ok page) →
      (fetch_full_records esearch efetch).2 =
        pyRangeStep (min sr.count 1000) 100 ∧
      (fetch_full_records esearch efetch).2.length =
        (min sr.count 1000 + 99) / 100) ∧
    (fetch_full_records ncbiTwoHitSearch ncbiTwoHitEfetch =
      (some [ncbiScenarioArticle "111" "First BRCA1 paper",
             ncbiScenarioArticle "222" "Second BRCA1 paper"], [0]) ∧
     (ncbiScenarioArticle "111" "First BRCA1 paper").PMID = "111" ∧
     (ncbiScenarioArticle "111" "First BRCA1 paper").PMID ≠ "" ∧
     (ncbiScenarioArticle "222" "Second BRCA1 paper").PMID ≠ "") := by
  refine ⟨?_, rfl, rfl, by decide, by decide⟩
  intro esearch efetch sr hs hpos hall
  subst hs
  have hfst : (fetch_full_records (.ok sr) efetch).2 =
      pyRangeStep (min sr.count 1000) 100 := by
    have hcalls := ncbiBatchLoop_calls_eq efetch
      (pyRangeStep (min sr.count 1000) 100) [] hall
    simp only [fetch_full_records, if_neg (Nat.pos_iff_ne_zero.mp hpos)]
    rcases hp : ncbiBatchLoop efetch (pyRangeStep (min sr.count 1000) 100) []
      with ⟨res, calls⟩
    rw [hp] at hcalls
    cases res with
    | error e => simpa using hcalls
    | ok raws =>
      rcases hparse : parse_pubmed_records raws with e | arts <;>
        simp [hparse] <;> simpa using hcalls
  refine ⟨hfst, ?_⟩
  rw [hfst, pyRangeStep_length]
  norm_num

/-- C4 witness: at the concrete count = 2 client, the scheduled offsets
are exactly the one-element schedule and the call count is 1. -/
theorem ncbi_batch_call_count_witness :
    (fetch_full_records ncbiTwoHitSearch ncbiTwoHitEfetch).2 =
      pyRangeStep (min 2 1000) 100 ∧
    (fetch_full_records ncbiTwoHitSearch ncbiTwoHitEfetch).2.length =
      (min 2 1000 + 99) / 100 :=
  ncbi_batch_call_count.1 ncbiTwoHitSearch ncbiTwoHitEfetch ⟨2, "WE_2", "QK_2"⟩
    rfl (by decide) (fun k _ => ⟨_, _, rfl, rfl⟩)

/-- fetch_full_records with the exception its except-clause catches kept
explicit (provider.py lines 39-41): the source formats and prints this
exception — for an HTTPError, its status and text — before collapsing
the result to None. Same control flow as fetch_full_records, with the
caught error carried instead of discarded. -/
def fetch_full_records_result (esearch : Except PyError NcbiSearchRes)
    (efetch : Nat → Except PyError JVal) :
    Except PyError (List PubMedArticle) × List Nat :=
  match esearch with
  | .error e => (.error e, [])
  | .ok sr =>
    if sr.count = 0 then (.ok [], [])
    else
      match ncbiBatchLoop efetch (pyRangeStep (min sr.count 1000) 100) [] with
      | (.ok raws, calls) =>
        match parse_pubmed_records raws with
        | .ok arts => (.ok arts, calls)
        | .error e => (.error e, calls)
      | (.error e, calls) => (.error e, calls)

/-- search_and_fetch_all with the exception its except-clauses catch
kept explicit (provider.py lines 145-150): the source prints the caught
HTTPError's status code and text (line 146) before collapsing the
result to None. Same control flow as search_and_fetch_all, with the
caught error carried instead of discarded. -/
def search_and_fetch_all_result (search : WosClient) :
    Except PyError (List WosArticle) :=
  match search 1 1 with
  | .error e => .error e
  | .ok initial =>
    if initial.total = 0 then .ok []
    else
      match wosFetchLoop search initial.total 1 wosMaxPages [] with
      | .error e => .error e
      | .ok allResults =>
        match parse_wos_records allResults with
        | .error e => .error e
        | .ok arts => .ok arts

/-- When the WoS page loop ends in an error — an HTTP failure at
whichever page it was processing — the whole fetch is none and the
surfaced (reported) result carries exactly that error. -/
theorem wos_loop_error_aborts (search : WosClient) (resp : WosSearchResp)
    (e : PyError) (h1 : search 1 1 = .ok resp) (ht : resp.total ≠ 0)
    (hloop : wosFetchLoop search resp.total 1 wosMaxPages [] = .error e) :
    search_and_fetch_all search = none ∧
    search_and_fetch_all_result search = .error e := by
  constructor
  · simp only [search_and_fetch_all, h1]
    rw [if_neg ht]
    simp only [hloop]
  · simp only [search_and_fetch_all_result, h1]
    rw [if_neg ht]
    simp only [hloop]

/-- Against an upstream that pages the fixed result list L consistently
up to page j but fails at page j (which the loop does reach, with the
first (j-1)*10 results already accumulated), the page loop propagates
that page's error: entering at any page i up to j with the first
(i-1)*10 results accumulated, the loop ends in exactly that error. -/
theorem wosFetchLoop_slice_until_error (L : List JVal) (search : WosClient)
    (j : Nat) (e : PyError)
    (hpage : ∀ i, 1 ≤ i → i < j → search i wosPageLimit =
      .ok ⟨L.length, (L.drop ((i - 1) * 10)).take 10⟩)
    (hfail : search j wosPageLimit = .error e)
    (hj5 : j ≤ 5) (hjlt : (j - 1) * 10 < L.length) :
    ∀ (f i : Nat), i + f = 6 → 1 ≤ i → i ≤ j →
      wosFetchLoop search L.length i f (L.take ((i - 1) * 10)) = .error e := by
  intro f
  induction f with
  | zero =>
    intro i hif h1 hij
    exfalso
    omega
  | succ n ih =>
    intro i hif h1 hij
    simp only [wosFetchLoop]
    have hile : (i - 1) * 10 ≤ (j - 1) * 10 :=
      Nat.mul_le_mul_right _ (by omega)
    have hguard : ¬ ((i - 1) * wosPageLimit ≥ L.length) := by
      simp only [wosPageLimit]
      omega
    rw [if_neg hguard]
    by_cases hji : i = j
    · subst hji
      simp only [hfail]
    · have hilt : i < j := by omega
      simp only [hpage i h1 hilt]
      have hlt : (i - 1) * 10 < L.length := by omega
      have hne : ((L.drop ((i - 1) * 10)).take 10) ≠ [] := by
        apply List.ne_nil_of_length_pos
        rw [List.length_take, List.length_drop]
        omega
      obtain ⟨a, t, hcons⟩ := List.exists_cons_of_ne_nil hne
      rw [if_neg (by simp [hcons])]
      have hacc : L.take ((i - 1) * 10) ++ (L.drop ((i - 1) * 10)).take 10 =
          L.take ((i + 1 - 1) * 10) := by
        rw [← List.take_add]
        congr 1
        omega
      rw [hacc]
      exact ih (i + 1) (by omega) (by omega) (by omega)

/-- C5: an HTTP-level failure during an in-progress multi-batch or
multi-page fetch aborts the fetch with the error result and all
partials fetched so far are discarded — a partial record sequence is
never returned — and the surfaced result carries the failure. In order:
any scheduled NCBI batch call that fails forces none; an NCBI success
implies every scheduled batch call succeeded (nothing partial was
kept); a failing WoS probe forces none; a failing WoS first page forces
none; both engines' Option results are exactly their Except runs — in
which the caught exception, whose status/text the except-clauses
report, is explicit — collapsed, so none is precisely an aborted run
with its failure surfaced; a WoS page loop that errors at any page
forces none and surfaces that very error; against a consistent upstream
failing at any reached page j of 5 (with (j-1)*10 partials already
accumulated) the fetch is none carrying page j's error — the
accumulated partials are discarded; and a WoS success implies the page
loop finished without any HTTP failure, so returned records are never
an error-truncated partial sequence. -/
theorem fetch_http_failure_discards_partials :
    (∀ (esearch : Except PyError NcbiSearchRes)
      (efetch : Nat → Except PyError JVal) (sr : NcbiSearchRes)
      (k : Nat) (e : PyError),
      esearch = .ok sr → k ∈ pyRangeStep (min sr.count 1000) 100 →
      efetch k = .error e →
      (fetch_full_records esearch efetch).1 = none) ∧
    (∀ (esearch : Except PyError NcbiSearchRes)
      (efetch : Nat → Except PyError JVal) (sr : NcbiSearchRes)
      (arts : List PubMedArticle) (calls : List Nat),
      esearch = .ok sr →
      fetch_full_records esearch efetch = (some arts, calls) →
      ∀ k ∈ pyRangeStep (min sr.count 1000) 100, ∃ d, efetch k = .ok d) ∧
    (∀ (search : WosClient) (e : PyError),
      search 1 1 = .error e → search_and_fetch_all search = none) ∧
    (∀ (search : WosClient) (resp : WosSearchResp) (e : PyError),
      search 1 1 = .ok resp → resp.total ≠ 0 →
      search 1 wosPageLimit = .error e → search_and_fetch_all search = none) ∧
    (∀ search : WosClient, search_and_fetch_all search =
      (search_and_fetch_all_result search).toOption) ∧
    (∀ (esearch : Except PyError NcbiSearchRes)
      (efetch : Nat → Except PyError JVal),
      (fetch_full_records esearch efetch).1 =
        (fetch_full_records_result esearch efetch).1.toOption ∧
      (fetch_full_records esearch efetch).2 =
        (fetch_full_records_result esearch efetch).2) ∧
    (∀ (search : WosClient) (resp : WosSearchResp) (e : PyError),
      search 1 1 = .ok resp → resp.total ≠ 0 →
      wosFetchLoop search resp.total 1 wosMaxPages [] = .error e →
      search_and_fetch_all search = none ∧
      search_and_fetch_all_result search = .error e) ∧
    (∀ (L : List JVal) (search : WosClient) (j : Nat) (e : PyError),
      search 1 1 = .ok ⟨L.length, L.take 1⟩ →
      (∀ i, 1 ≤ i → i < j → search i wosPageLimit =
        .ok ⟨L.length, (L.drop ((i - 1) * 10)).take 10⟩) →
      1 ≤ j → j ≤ 5 → (j - 1) * 10 < L.length →
      search j wosPageLimit = .error e →
      search_and_fetch_all search = none ∧
      search_and_fetch_all_result search = .error e) ∧
    (∀ (search : WosClient) (resp : WosSearchResp) (arts : List WosArticle),
      search 1 1 = .ok resp → resp.total ≠ 0 →
      search_and_fetch_all search = some arts →
      ∃ raws, wosFetchLoop search resp.total 1 wosMaxPages [] = .ok raws ∧
        parse_wos_records raws = .ok arts) := by
  refine ⟨?_, ?_, ?_, ?_, ?_, ?_, ?_, ?_, ?_⟩
  · intro esearch efetch sr k e hs hk hke
    subst hs
    by_cases h0 : sr.count = 0
    · simp [pyRangeStep, h0] at hk
    · simp only [fetch_full_records, if_neg h0]
      obtain ⟨e2, he2⟩ := ncbiBatchLoop_error_of_mem efetch
        (pyRangeStep (min sr.count 1000) 100) [] k e hk hke
      rcases hp : ncbiBatchLoop efetch (pyRangeStep (min sr.count 1000) 100) []
        with ⟨res, calls⟩
      rw [hp] at he2
      simp only at he2
      subst he2
      simp
  · intro esearch efetch sr arts calls hs hfetch k hk
    subst hs
    by_cases h0 : sr.count = 0
    · simp [pyRangeStep, h0] at hk
    · simp only [fetch_full_records, if_neg h0] at hfetch
      rcases hp : ncbiBatchLoop efetch (pyRangeStep (min sr.count 1000) 100) []
        with ⟨res, calls2⟩
      rw [hp] at hfetch
      cases res with
      | error e => simp at hfetch
      | ok raws =>
        exact ncbiBatchLoop_ok_all_called efetch _ [] raws (by rw [hp]) k hk
  · intro search e h
    simp [search_and_fetch_all, h]
  · intro search resp e hprobe ht hfail
    simp only [search_and_fetch_all, hprobe]
    rw [if_neg ht]
    have hloop : wosFetchLoop search resp.total 1 wosMaxPages [] = .error e := by
      show wosFetchLoop search resp.total 1 (4 + 1) [] = .error e
      simp only [wosFetchLoop]
      rw [if_neg (by simp only [wosPageLimit]; omega), hfail]
    rw [hloop]
  · intro search
    simp only [search_and_fetch_all, search_and_fetch_all_result]
    rcases h1 : search 1 1 with e | initial
    · rfl
    · simp only []
      by_cases h0 : initial.total = 0
      · rw [if_pos h0, if_pos h0]
        rfl
      · rw [if_neg h0, if_neg h0]
        rcases h2 : wosFetchLoop search initial.total 1 wosMaxPages []
          with e2 | raws
        · rfl
        · simp only []
          rcases h3 : parse_wos_records raws with e3 | arts <;> rfl
  · intro esearch efetch
    simp only [fetch_full_records, fetch_full_records_result]
    rcases hs : esearch with e | sr
    · exact ⟨rfl, rfl⟩
    · simp only []
      by_cases h0 : sr.count = 0
      · rw [if_pos h0, if_pos h0]
        exact ⟨rfl, rfl⟩
      · rw [if_neg h0, if_neg h0]
        rcases hp : ncbiBatchLoop efetch (pyRangeStep (min sr.count 1000) 100) []
          with ⟨res, calls⟩
        cases res with
        | error e2 => exact ⟨rfl, rfl⟩
        | ok raws =>
          simp only []
          rcases hq : parse_pubmed_records raws with e3 | arts <;>
            exact ⟨rfl, rfl⟩
  · intro search resp e h1 ht hloop
    exact wos_loop_error_aborts search resp e h1 ht hloop
  · intro L search j e hprobe hpage hj1 hj5 hjlt hfail
    have hloop := wosFetchLoop_slice_until_error L search j e hpage hfail hj5
      hjlt 5 1 (by omega) (by omega) (by omega)
    norm_num at hloop
    exact wos_loop_error_aborts search ⟨L.length, L.take 1⟩ e hprobe
      (by simp only; omega) hloop
  · intro search resp arts h1 ht hsucc
    simp only [search_and_fetch_all, h1] at hsucc
    rw [if_neg ht] at hsucc
    rcases h2 : wosFetchLoop search resp.total 1 wosMaxPages [] with e2 | raws
    · simp [h2] at hsucc
    · simp only [h2] at hsucc
      rcases h3 : parse_wos_records raws with e3 | as
      · simp [h3] at hsucc
      · simp only [h3, Option.some.injEq] at hsucc
        subst hsucc
        exact ⟨raws, rfl, h3⟩

/-- An NCBI efetch client whose every batch call fails at HTTP level. -/
def failingEfetchClient : Nat → Except PyError JVal :=
  fun _ => .error (.httpError 500 "internal server error")

/-- A WoS client whose probe call itself fails at HTTP level. -/
def failingWosProbeClient : WosClient :=
  fun _ _ => .error (.httpError 401 "unauthorized")

/-- A WoS client whose probe succeeds (7 hits) but whose page fetches
fail at HTTP level. -/
def failingWosPageClient : WosClient := fun _ limit =>
  if limit == 1 then .ok ⟨7, [.jdict []]⟩
  else .error (.httpError 429 "too many requests")

/-- Thirty-five raw WoS hits: enough that page 3 is reached with the 20
hits of pages 1 and 2 already accumulated. -/
def wosMidFailDemoRecords : List JVal :=
  (List.range 35).map (fun n => .jdict [("uid", .jnum n)])

/-- A WoS upstream paging wosMidFailDemoRecords consistently (probe and
pages 1-2) but failing at HTTP level from page 3 onward: a mid-fetch
failure arriving after two pages of partial results. -/
def wosMidFailDemoClient : WosClient := fun page limit =>
  if 3 ≤ page ∧ limit = 10 then .error (.httpError 500 "internal server error")
  else .ok ⟨wosMidFailDemoRecords.length,
    (wosMidFailDemoRecords.drop ((page - 1) * limit)).take limit⟩

/-- C5 witness: failing clients at concrete inputs all yield none; in
particular the mid-fetch failure at page 3 — with the 20 hits of pages
1 and 2 already accumulated — discards those partials (none) and the
surfaced result carries exactly the page-3 HTTP error. -/
theorem fetch_http_failure_discards_partials_witness :
    (fetch_full_records (.ok ⟨150, "WE_5", "QK_5"⟩) failingEfetchClient).1 = none ∧
    search_and_fetch_all failingWosProbeClient = none ∧
    search_and_fetch_all failingWosPageClient = none ∧
    search_and_fetch_all wosMidFailDemoClient = none ∧
    search_and_fetch_all_result wosMidFailDemoClient =
      .error (.httpError 500 "internal server error") :=
  ⟨fetch_http_failure_discards_partials.1 _ failingEfetchClient
      ⟨150, "WE_5", "QK_5"⟩ 0 _ rfl (by decide) rfl,
   fetch_http_failure_discards_partials.2.2.1 failingWosProbeClient _ rfl,
   fetch_http_failure_discards_partials.2.2.2.1 failingWosPageClient
      ⟨7, [.jdict []]⟩ _ rfl (by decide) rfl,
   (fetch_http_failure_discards_partials.2.2.2.2.2.2.2.1 wosMidFailDemoRecords
      wosMidFailDemoClient 3 _ rfl
      (by intro i hi1 hi3; interval_cases i <;> rfl)
      (by decide) (by decide) (by decide) rfl).1,
   (fetch_http_failure_discards_partials.2.2.2.2.2.2.2.1 wosMidFailDemoRecords
      wosMidFailDemoClient 3 _ rfl
      (by intro i hi1 hi3; interval_cases i <;> rfl)
      (by decide) (by decide) (by decide) rfl).2⟩

/-- Loop invariant for the WoS page loop against an upstream that serves
consistent pages of one fixed result list L (page i carrying the slice
of 10 hits starting at (i-1)*10, total = length of L): entering the loop
at page i with 6 - i iterations left and the first (i-1)*10 results
accumulated, the loop ends successfully holding the first 50 results
(or all of L when it is shorter). -/
theorem wosFetchLoop_slice (L : List JVal) (search : WosClient)
    (hpage : ∀ i, 1 ≤ i → i ≤ 5 → search i wosPageLimit =
      .ok ⟨L.length, (L.drop ((i - 1) * 10)).take 10⟩) :
    ∀ (f i : Nat), i + f = 6 → 1 ≤ i →
      wosFetchLoop search L.length i f (L.take ((i - 1) * 10)) =
        .ok (L.take 50) := by
  intro f
  induction f with
  | zero =>
    intro i hif h1
    have h6 : i = 6 := by omega
    subst h6
    simp only [wosFetchLoop]
  | succ n ih =>
    intro i hif h1
    have hi5 : i ≤ 5 := by omega
    simp only [wosFetchLoop]
    by_cases hc : (i - 1) * wosPageLimit ≥ L.length
    · rw [if_pos hc]
      have hlen : L.length ≤ (i - 1) * 10 := by
        simpa [wosPageLimit] using hc
      rw [List.take_of_length_le hlen, List.take_of_length_le (by omega)]
    · rw [if_neg hc]
      simp only [hpage i h1 hi5]
      have hlt : (i - 1) * 10 < L.length := by
        simp only [wosPageLimit] at hc; omega
      have hne : ((L.drop ((i - 1) * 10)).take 10) ≠ [] := by
        apply List.ne_nil_of_length_pos
        rw [List.length_take, List.length_drop]
        omega
      obtain ⟨a, t, hcons⟩ := List.exists_cons_of_ne_nil hne
      rw [if_neg (by simp [hcons])]
      have hacc : L.take ((i - 1) * 10) ++ (L.drop ((i - 1) * 10)).take 10 =
          L.take ((i + 1 - 1) * 10) := by
        rw [← List.take_add]
        congr 1
        omega
      rw [hacc]
      exact ih (i + 1) (by omega) (by omega)

/-- C1: against an upstream that pages one fixed result list L (probe
reporting total = length of L, page i of limit 10 carrying the slice at
offset (i-1)*10), the page-number fetch succeeds with exactly the
normalization of the first 5*10 = 50 results — so it stops at the total
(the accumulated raw hits never pass the end of L), at an empty page,
or at the 5-page ceiling — and the number of normalized records
returned never exceeds the total reported by the probe. -/
theorem wos_page_fetch_respects_total (L : List JVal) (search : WosClient)
    (hprobe : search 1 1 = .ok ⟨L.length, L.take 1⟩)
    (hpage : ∀ i, 1 ≤ i → i ≤ 5 → search i wosPageLimit =
      .ok ⟨L.length, (L.drop ((i - 1) * 10)).take 10⟩) :
    search_and_fetch_all search = (parse_wos_records (L.take 50)).toOption ∧
    ∀ arts, search_and_fetch_all search = some arts →
      arts.length ≤ L.length := by
  have hmain : search_and_fetch_all search =
      (parse_wos_records (L.take 50)).toOption := by
    simp only [search_and_fetch_all, hprobe, wosMaxPages]
    by_cases h0 : L.length = 0
    · rw [List.length_eq_zero] at h0
      subst h0
      simp [parse_wos_records, Except.toOption]
    · rw [if_neg h0]
      have hl := wosFetchLoop_slice L search hpage 5 1 (by omega) (by omega)
      norm_num at hl
      simp only [hl]
      rcases hp : parse_wos_records (L.take 50) with e | as <;> rfl
  refine ⟨hmain, ?_⟩
  intro arts h
  rw [hmain] at h
  rcases hp : parse_wos_records (L.take 50) with e | as
  · rw [hp] at h; simp [Except.toOption] at h
  · rw [hp] at h
    simp only [Except.toOption, Option.some.injEq] at h
    subst h
    exact le_trans (parse_wos_records_length_le _ _ hp)
      (by rw [List.length_take]; exact min_le_right _ _)

/-- Twelve raw WoS hits, the fixed result list of the demo upstream. -/
def wosSliceDemoRecords : List JVal :=
  (List.range 12).map (fun n => .jdict [("uid", .jnum n)])

/-- A demo WoS upstream paging wosSliceDemoRecords consistently: every
call returns the slice of the fixed result list at the requested page
and limit, with the true total. -/
def wosSliceDemoClient : WosClient := fun page limit =>
  .ok ⟨wosSliceDemoRecords.length,
       (wosSliceDemoRecords.drop ((page - 1) * limit)).take limit⟩

/-- C1 witness: against the 12-record demo upstream the fetch returns
exactly the normalization of the first 50 results of the fixed list. -/
theorem wos_page_fetch_respects_total_witness :
    search_and_fetch_all wosSliceDemoClient =
      (parse_wos_records (wosSliceDemoRecords.take 50)).toOption :=
  (wos_page_fetch_respects_total wosSliceDemoRecords wosSliceDemoClient rfl
    (fun _ _ _ => rfl)).1
